import Mathlib

/-
Verification of the startvnc utility (startvnc.py) against its
natural-language specification.

The Python source is shallowly embedded: pure string processing becomes
Lean functions on `String` / `List Char`; side-effecting methods become
functions returning a list of `Effect`s (commands executed, stdout and
stderr prints), with the outcomes of external subprocesses supplied by an
explicit environment record `Env`.
-/

namespace StartVnc

/-! ## Identifier resolver (`Vnc.get_remote`)

The Python code matches the verbose regex

  `^ (([ls])(\d{3})) | ((?:\d{3}\.){3}\d{3}) $`

with `re.match`.  Because alternation binds loosest, the `^` belongs to the
first alternative only and the `$` to the second only.  `re.match` itself
anchors every alternative at the start of the string, so:

  * alternative 1 (`^(([ls])(\d{3}))`) matches any string that *starts*
    with `s` or `l` followed by three digits; trailing characters are
    ignored;
  * alternative 2 (`((?:\d{3}\.){3}\d{3})$`) must span from the start of
    the string to its end, where Python's `$` also accepts a position just
    before a single trailing newline.

`\d` is modelled as the ASCII digits (the inputs of interest are ASCII).
-/

/-- First regex alternative `^(([ls])(\d{3}))` under `re.match`: succeeds
when the string starts with `s`/`l` and three digits, returning the
captured letter (group 2) and digit list (group 3).  The rest of the
string is unconstrained because this alternative carries no `$`. -/
def branch1 : List Char → Option (Char × List Char)
  | c :: d1 :: d2 :: d3 :: _ =>
      if (c == 's' || c == 'l') && d1.isDigit && d2.isDigit && d3.isDigit then
        some (c, [d1, d2, d3])
      else
        none
  | _ => none

/-- The shape `(?:\d{3}\.){3}\d{3}`: exactly four groups of three ASCII
digits separated by dots (15 characters). -/
def ipv4Shape : List Char → Bool
  | [a1, a2, a3, p1, b1, b2, b3, p2, c1, c2, c3, p3, e1, e2, e3] =>
      a1.isDigit && a2.isDigit && a3.isDigit && p1 == '.' &&
      b1.isDigit && b2.isDigit && b3.isDigit && p2 == '.' &&
      c1.isDigit && c2.isDigit && c3.isDigit && p3 == '.' &&
      e1.isDigit && e2.isDigit && e3.isDigit
  | _ => false

/-- Second regex alternative `((?:\d{3}\.){3}\d{3})$` under `re.match`:
the dotted quad must cover the whole string, except that Python's `$`
also matches just before one trailing newline.  Returns group 4 (the
quad itself, never including the newline). -/
def branch2 (cs : List Char) : Option (List Char) :=
  if ipv4Shape cs then some cs
  else if cs.getLast? == some '\n' && ipv4Shape cs.dropLast then some cs.dropLast
  else none

/-- Embedding of `Vnc.get_remote`: try alternative 1, then alternative 2;
on a shortname build `'procs@' + '192.168.' + octet3 + digits` where
`octet3` is `'200.'` for `l` and `'101.'` otherwise; on a dotted quad
return `'procs@' + quad`; otherwise `None`. -/
def get_remote (ip_address : String) : Option String :=
  match branch1 ip_address.data with
  | some (c, ds) =>
      some (String.mk ("procs@".data ++ "192.168.".data ++
        (if c = 'l' then "200." else "101.").data ++ ds))
  | none =>
      match branch2 ip_address.data with
      | some g4 => some (String.mk ("procs@".data ++ g4))
      | none => none

/-- Embedding of class `Vnc`'s instance state set up by `__init__`:
the raw input `ip` and the resolved `remote`. -/
structure Vnc where
  ip : String
  remote : Option String
  deriving DecidableEq

/-- Embedding of `Vnc.__init__`: store the input and its resolution. -/
def mkVnc (ip_address : String) : Vnc :=
  ⟨ip_address, get_remote ip_address⟩

/-! ## Helper lemmas about the resolver -/

/-- Every successful resolution produces a string whose characters are
`procs@` followed by the address characters. -/
theorem get_remote_data_shape (ip r : String) (h : get_remote ip = some r) :
    ∃ l : List Char, r.data = "procs@".data ++ l := by
  unfold get_remote at h
  rcases hb1 : branch1 ip.data with _ | ⟨c, ds⟩
  · rw [hb1] at h
    rcases hb2 : branch2 ip.data with _ | g4
    · rw [hb2] at h
      simp at h
    · rw [hb2] at h
      simp only [Option.some.injEq] at h
      exact ⟨g4, by rw [← h]⟩
  · rw [hb1] at h
    simp only [Option.some.injEq] at h
    refine ⟨"192.168.".data ++ (if c = 'l' then "200." else "101.").data ++ ds, ?_⟩
    rw [← h]
    simp

/-- A resolved remote is a nonempty string. -/
theorem get_remote_ne_empty (ip r : String) (h : get_remote ip = some r) :
    r.data ≠ [] := by
  obtain ⟨l, hl⟩ := get_remote_data_shape ip r h
  rw [hl]
  simp

/-! ## Claim theorems: resolver -/

/-- C1: every input consisting of exactly the letter `s` or `l` followed by
three digits resolves to `procs@192.168.<octet3>.<digits>`, where the third
octet is `200` when the letter is `l` and `101` when it is `s`, and the
final group is the input's three digits. -/
theorem c1_shortname_resolution (s : String) (c d1 d2 d3 : Char)
    (hdata : s.data = [c, d1, d2, d3])
    (hc : c = 's' ∨ c = 'l')
    (h1 : d1.isDigit = true) (h2 : d2.isDigit = true) (h3 : d3.isDigit = true) :
    get_remote s =
      some ("procs@" ++ "192.168." ++ (if c = 'l' then "200." else "101.") ++
        String.mk [d1, d2, d3]) := by
  have hb1 : branch1 s.data = some (c, [d1, d2, d3]) := by
    rw [hdata]
    unfold branch1
    have hcb : (c == 's' || c == 'l') = true := by
      rcases hc with h | h <;> simp [h]
    simp [hcb, h1, h2, h3]
  unfold get_remote
  rw [hb1]
  apply congrArg some
  apply String.ext
  rcases hc with h | h <;> subst h <;> simp

/-- C1 witness: `l193` resolves to `procs@192.168.200.193`. -/
theorem c1_witness : get_remote "l193" = some "procs@192.168.200.193" := by
  rw [c1_shortname_resolution "l193" 'l' '1' '9' '3' (by decide) (Or.inr rfl)
    (by decide) (by decide) (by decide)]
  decide

/-- C2 counterexample: `s1234` matches neither `^[sl]\d\x7b3\x7d$` nor the
dotted-quad pattern in their fully anchored readings, yet the resolver
still returns a target (built from the first three digits), because the
`$` in the source regex anchors only the dotted-quad alternative. -/
theorem c2_counterexample : get_remote "s1234" = some "procs@192.168.101.123" := by
  decide

/-- Spec-side characterization of the inputs alternative 1 accepts:
the string *starts with* `s`/`l` plus three digits. -/
def startsWithShortname : List Char → Bool
  | c :: d1 :: d2 :: d3 :: _ =>
      (c == 's' || c == 'l') && d1.isDigit && d2.isDigit && d3.isDigit
  | _ => false

/-- Spec-side characterization of the inputs alternative 2 accepts:
the full dotted-quad shape, allowing one trailing newline (Python `$`). -/
def pyIpv4Anchored (cs : List Char) : Bool :=
  ipv4Shape cs || (cs.getLast? == some '\n' && ipv4Shape cs.dropLast)

theorem branch1_eq_none (cs : List Char) (h : startsWithShortname cs = false) :
    branch1 cs = none := by
  rcases cs with _ | ⟨c, _ | ⟨d1, _ | ⟨d2, _ | ⟨d3, rest⟩⟩⟩⟩ <;>
    simp_all [branch1, startsWithShortname]

theorem branch2_eq_none (cs : List Char) (h : pyIpv4Anchored cs = false) :
    branch2 cs = none := by
  unfold pyIpv4Anchored at h
  simp only [Bool.or_eq_false_iff] at h
  unfold branch2
  simp [h.1, h.2]

/-- C2 (amended): only the dotted-quad alternative is effectively anchored
at both ends (modulo one trailing newline); the shortname alternative is
anchored at the start only.  Every input that neither *starts with*
`[sl]\d\x7b3\x7d` nor *is* a full three-digit dotted quad (up to one trailing
newline) resolves to no target. -/
theorem c2_unmatched_inputs_resolve_to_none (s : String)
    (hA : startsWithShortname s.data = false)
    (hB : pyIpv4Anchored s.data = false) :
    get_remote s = none := by
  unfold get_remote
  rw [branch1_eq_none s.data hA, branch2_eq_none s.data hB]

/-- C2 amended witness: `193` (no letter, too short for the quad shape)
resolves to no target. -/
theorem c2_amended_witness :
    startsWithShortname "193".data = false ∧ pyIpv4Anchored "193".data = false ∧
      get_remote "193" = none :=
  ⟨by decide, by decide,
    c2_unmatched_inputs_resolve_to_none "193" (by decide) (by decide)⟩

/-- A string of dotted-quad shape cannot be accepted by the shortname
alternative: its fourth character is the dot, which is not a digit. -/
theorem branch1_eq_none_of_ipv4 (cs : List Char) (h : ipv4Shape cs = true) :
    branch1 cs = none := by
  have hdot : ('.' : Char).isDigit = false := by decide
  rcases cs with _|⟨a1,_|⟨a2,_|⟨a3,_|⟨p1,_|⟨b1,_|⟨b2,_|⟨b3,_|⟨p2,_|⟨c1,_|⟨c2,_|⟨c3,_|⟨p3,_|⟨e1,_|⟨e2,_|⟨e3,_|⟨x,r⟩⟩⟩⟩⟩⟩⟩⟩⟩⟩⟩⟩⟩⟩⟩⟩ <;>
    simp only [ipv4Shape, Bool.and_eq_true, beq_iff_eq] at h <;>
    try simp at h
  have hp : p1 = '.' := h.1.1.1.1.1.1.1.1.1.1.1.2
  subst hp
  simp [branch1, hdot]

/-- C3: every input that is exactly a three-digit dotted quad resolves to
`procs@` followed by the input verbatim; and every successful resolution,
of whatever input, has the form `procs@<address>`. -/
theorem c3_ipv4_verbatim :
    (∀ s : String, ipv4Shape s.data = true → get_remote s = some ("procs@" ++ s)) ∧
    (∀ s t : String, get_remote s = some t → ∃ addr : String, t = "procs@" ++ addr) := by
  constructor
  · intro s hs
    have hb2 : branch2 s.data = some s.data := by
      unfold branch2
      simp [hs]
    unfold get_remote
    rw [branch1_eq_none_of_ipv4 s.data hs, hb2]
    apply congrArg some
    apply String.ext
    simp
  · intro s t h
    obtain ⟨l, hl⟩ := get_remote_data_shape s t h
    exact ⟨String.mk l, String.ext hl⟩

/-- C3 witness: `192.168.200.193` resolves verbatim to
`procs@192.168.200.193`. -/
theorem c3_witness :
    ipv4Shape "192.168.200.193".data = true ∧
      get_remote "192.168.200.193" = some "procs@192.168.200.193" :=
  ⟨by decide, by rw [c3_ipv4_verbatim.1 "192.168.200.193" (by decide)]; decide⟩

/-- C9: resolution is deterministic and idempotent: `get_remote` is a pure
function of its input (the Python method is a `staticmethod` touching no
mutable state), so two resolutions of the same identifier agree, and the
`remote` stored at construction time equals resolving the stored `ip`
again. -/
theorem c9_resolution_deterministic (s : String) :
    get_remote s = get_remote s ∧ (mkVnc s).remote = get_remote ((mkVnc s).ip) :=
  ⟨rfl, rfl⟩

/-! ## Effect model for the side-effecting methods

Each method is embedded as a function returning the list of observable
effects it performs, in order.  The outcomes of the external subprocesses
it consults (remote `pgrep`, local `pgrep -c`, remote `killall`) and the
relevant filesystem facts are supplied by an `Env` record. -/

/-- One observable step: executing an external command (via `os.system`,
`subprocess.run(shlex.split(..))`, `subprocess.Popen(shlex.split(..))`, or
`subprocess.run` on an argv list), sleeping, or printing a line. -/
inductive Effect where
  | system (cmd : String)
  | runSplitWait (cmd : String)
  | popen (cmd : String)
  | run (args : List String)
  | sleep (secs : Nat)
  | printOut (s : String)
  | printErr (s : String)
  deriving DecidableEq

/-- Result of one `subprocess.run` call: exit code and captured stdout. -/
structure RunResult where
  returncode : Int
  stdout : String
  deriving DecidableEq

/-- Outcomes of the external world consulted by the methods:
whether `~/.vnc/labs` exists, the user's home directory (for
`os.path.expanduser`), the exit status of the remote
`pgrep -f x0tigervncserver`, the result of the local
`pgrep -c vncviewer`, and the exit status of the remote `killall`. -/
structure Env where
  home : String
  passwd_file_exists : Bool
  pgrep_remote_ok : Bool
  local_pgrep : RunResult
  killall_ok : Bool
  deriving DecidableEq

/-- `x0tigervncserver`, the class attribute `__SERVER`. -/
def SERVER : String := "x0tigervncserver"

/-- `vncviewer`, the class attribute `__CLIENT`. -/
def CLIENT : String := "vncviewer"

/-- Python truthiness of the `remote` attribute (`None` and the empty
string are falsy). -/
def pyTruthyOptStr : Option String → Bool
  | none => false
  | some s => !s.data.isEmpty

/-- The resolved remote as a plain string (only used on the guarded path,
where it is known to be present). -/
def remoteStr (v : Vnc) : String := v.remote.getD ""

/-- The stderr diagnostic the `check_remote` decorator prints when the
`remote` attribute is falsy (the typo `paramter` is the source's). -/
def guardErr (v : Vnc) : Effect :=
  .printErr ("Could not identify ip from paramter: " ++ v.ip)

/-- The command string built by `Vnc.connect_server`:
tunnel-forward `localport` to the server's port 5900, then launch the
viewer on `localhost:localport`, passing the password file when present. -/
def connectCmd (remote : String) (env : Env) (localport : Int) : String :=
  let pfile := env.home ++ "/.vnc/labs"
  let parg := if env.passwd_file_exists then "-passwd " ++ pfile else ""
  "ssh -fL " ++ toString localport ++ ":localhost:5900 " ++ remote ++
    " sleep 5;" ++ "vncviewer " ++ parg ++ " -DotWhenNoCursor=1 localhost:" ++
    toString localport

/-- Embedding of `Vnc.connect_server`: when guarded in, print the command
and run it through `os.system`; otherwise print the guard diagnostic. -/
def connect_server (v : Vnc) (env : Env) (localport : Int) : List Effect :=
  if pyTruthyOptStr v.remote then
    let cmd := connectCmd (remoteStr v) env localport
    [.printOut cmd, .system cmd]
  else [guardErr v]

/-- The command string built by `Vnc.start_server` (note the doubled
space when no `-t` is inserted, exactly as `str.format` produces). -/
def startServerCmd (remote : String) (term : Bool) : String :=
  "ssh " ++ (if term then "-t" else "") ++ " " ++ remote ++
    " \x27DISPLAY=:0 " ++ SERVER ++ " -rfbauth ~/.vnc/passwd\x27"

/-- Embedding of `Vnc.start_server`: print the command, then either run it
interactively and wait (`term` truthy) or detach it in the background and
sleep one second. -/
def start_server (v : Vnc) (_env : Env) (term : Bool) : List Effect :=
  if pyTruthyOptStr v.remote then
    let cmd := startServerCmd (remoteStr v) term
    Effect.printOut cmd ::
      (if term then [Effect.runSplitWait cmd] else [Effect.popen cmd, Effect.sleep 1])
  else [guardErr v]

/-- Embedding of `Vnc.stop_server`: run the remote `killall` (without any
echo of the command) and print a confirmation only when it exits 0. -/
def stop_server (v : Vnc) (env : Env) : List Effect :=
  if pyTruthyOptStr v.remote then
    Effect.run ["ssh", remoteStr v, "killall", SERVER] ::
      (if env.killall_ok then
        [Effect.printOut ("Closed " ++ SERVER ++ " at " ++ remoteStr v)]
      else [])
  else [guardErr v]

/-- Embedding of `Vnc.is_server_running`: run the remote `pgrep -f`
(without echoing it); exit 0 means running (with a notice printed),
anything else means not running.  The first component is the returned
value, `none` standing for the `None` the guard returns on a falsy
`remote`. -/
def is_server_running (v : Vnc) (env : Env) : Option Bool × List Effect :=
  if pyTruthyOptStr v.remote then
    if env.pgrep_remote_ok then
      (some true,
        [Effect.run ["ssh", remoteStr v, "pgrep", "-f", SERVER],
         Effect.printOut (SERVER ++ " already running at " ++ remoteStr v)])
    else (some false, [Effect.run ["ssh", remoteStr v, "pgrep", "-f", SERVER]])
  else (none, [guardErr v])

/-- Python `str.strip('\n')`: remove leading and trailing newlines. -/
def pyStripChar (c : Char) (s : String) : String :=
  String.mk (((s.data.dropWhile (· = c)).reverse.dropWhile (· = c)).reverse)

/-- Decimal value of a digit list. -/
def digitsToNat (ds : List Char) : Nat :=
  ds.foldl (fun acc c => acc * 10 + (c.toNat - '0'.toNat)) 0

/-- Python whitespace stripped by `int()`. -/
def isPySpace (c : Char) : Bool :=
  c = ' ' || c = '\t' || c = '\n' || c = '\r' || c = '\x0B' || c = '\x0C'

/-- Model of Python `int()` on a string: strip whitespace, allow one
optional sign, then require a nonempty run of ASCII digits; `none` models
the `ValueError` raised otherwise.  (Underscore separators and non-ASCII
digits, which real `int()` also accepts, are outside the inputs of
interest and not modelled.) -/
def pyInt? (s : String) : Option Int :=
  let cs := ((s.data.dropWhile isPySpace).reverse.dropWhile isPySpace).reverse
  match cs with
  | '-' :: rest =>
      if rest ≠ [] ∧ rest.all Char.isDigit then some (-(digitsToNat rest : Int))
      else none
  | '+' :: rest =>
      if rest ≠ [] ∧ rest.all Char.isDigit then some (digitsToNat rest : Int)
      else none
  | _ =>
      if cs ≠ [] ∧ cs.all Char.isDigit then some (digitsToNat cs : Int)
      else none

/-- Embedding of `Vnc.is_client_running` (not guarded): run the local
`pgrep -c vncviewer`; on exit 0 parse the count from stdout (`none`
modelling the uncaught `ValueError` when it does not parse), on nonzero
exit return 0. -/
def is_client_running (res : RunResult) : Option Int × List Effect :=
  (if res.returncode = 0 then pyInt? (pyStripChar '\n' res.stdout) else some 0,
   [Effect.run ["pgrep", "-c", CLIENT]])

/-- Python `not` applied to the value of `is_server_running()` (which is
`None` when the guard rejected, else a `bool`). -/
def pyNotOptBool : Option Bool → Bool
  | some true => false
  | _ => true

/-- Embedding of `Vnc.start_client`: check the remote server, start it in
the background when it is not running (remembering `is_started`), count
local viewers, pick the forward port, connect, and finally stop the
server exactly when this invocation started it.  A `ValueError` from the
count parse aborts the method after the effects already performed. -/
def start_client (v : Vnc) (env : Env) : List Effect :=
  if pyTruthyOptStr v.remote then
    let r1 := is_server_running v env
    let is_started := pyNotOptBool r1.1
    let e2 := if is_started then start_server v env false else []
    let r3 := is_client_running env.local_pgrep
    match r3.1 with
    | none => r1.2 ++ e2 ++ r3.2
    | some num_proc =>
      let listen : Int := if num_proc > 0 then 9900 + num_proc else 9900
      let e4 :=
        if num_proc > 0 then
          [Effect.printOut (toString num_proc ++ " instance(s) of " ++ CLIENT ++
            " is running. Use forwarding port: " ++ toString listen)]
        else []
      r1.2 ++ e2 ++ r3.2 ++ e4 ++ connect_server v env listen ++
        (if is_started then stop_server v env else [])
  else [guardErr v]

/-- Python substring test `needle in hay`, sugar-free: some tail of `hay`
starts with `needle`. -/
def startsWithList : List Char → List Char → Bool
  | [], _ => true
  | _ :: _, [] => false
  | a :: as, b :: bs => a = b && startsWithList as bs

/-- Python `needle in hay` on strings. -/
def pyInStr (needle hay : String) : Bool :=
  go needle.data hay.data
where
  go (n : List Char) : List Char → Bool
    | [] => startsWithList n []
    | c :: t => startsWithList n (c :: t) || go n t

/-- Python truthiness of a string. -/
def pyTruthyStr (s : String) : Bool := !s.data.isEmpty

/-- Embedding of the three-argument branch of `main`: the candidate lists
`[['start_server', 'True'], ['connect_server'], ['stop_server']]` are
filtered by substring containment of `sys.argv[2]` in the method name, in
order, and the first hit is invoked with its recorded parameters (the
string `'True'` for `start_server`, which is truthy; `connect_server`
falls back to its default port 9900).  No hit runs nothing. -/
def main3 (v : Vnc) (env : Env) (action : String) : List Effect :=
  if pyInStr action "start_server" then start_server v env (pyTruthyStr "True")
  else if pyInStr action "connect_server" then connect_server v env 9900
  else if pyInStr action "stop_server" then stop_server v env
  else []

/-- A fixed sample environment used by the concrete witnesses. -/
def env0 : Env :=
  { home := "/home/user"
    passwd_file_exists := true
    pgrep_remote_ok := true
    local_pgrep := ⟨0, "2\n"⟩
    killall_ok := true }

/-- Stdout printing effects. -/
def isStdoutEffect : Effect → Bool
  | .printOut _ => true
  | _ => false

/-- Stderr printing effects. -/
def isStderrEffect : Effect → Bool
  | .printErr _ => true
  | _ => false

/-- Effects that execute an external command. -/
def isExecEffect : Effect → Bool
  | .system _ => true
  | .runSplitWait _ => true
  | .popen _ => true
  | .run _ => true
  | _ => false

/-- The commands a trace passes to `os.system`, in order (`os.system` is
used only for the tunnel-and-viewer command). -/
def systemCmds (tr : List Effect) : List String :=
  tr.filterMap fun e =>
    match e with
    | .system c => some c
    | _ => none

/-- A resolved remote is truthy for the guard. -/
theorem pyTruthy_of_get_remote (ip r : String) (h : get_remote ip = some r) :
    pyTruthyOptStr (some r) = true := by
  obtain ⟨l, hl⟩ := get_remote_data_shape ip r h
  show (!r.data.isEmpty) = true
  rw [hl]
  rfl

/-! ## Claim theorems: guarded operations and lifecycle -/

/-- C4 (amended): when resolution fails, every guarded operation
(`start_server`, `connect_server`, `stop_server`, `is_server_running`,
`start_client`) aborts before building or running any command, but it is
not silent: the guard prints one diagnostic line naming the unresolved
input to stderr. -/
theorem c4_guard_aborts (ip : String) (env : Env) (term : Bool) (port : Int)
    (h : get_remote ip = none) :
    start_server (mkVnc ip) env term = [guardErr (mkVnc ip)] ∧
    connect_server (mkVnc ip) env port = [guardErr (mkVnc ip)] ∧
    stop_server (mkVnc ip) env = [guardErr (mkVnc ip)] ∧
    is_server_running (mkVnc ip) env = (none, [guardErr (mkVnc ip)]) ∧
    start_client (mkVnc ip) env = [guardErr (mkVnc ip)] ∧
    guardErr (mkVnc ip) =
      Effect.printErr ("Could not identify ip from paramter: " ++ ip) := by
  have htr : pyTruthyOptStr (mkVnc ip).remote = false := by
    simp [mkVnc, h, pyTruthyOptStr]
  refine ⟨?_, ?_, ?_, ?_, ?_, rfl⟩ <;>
    simp [start_server, connect_server, stop_server, is_server_running,
      start_client, htr]

/-- C4 counterexample: on resolution failure the user-visible behaviour is
not silence: a stderr diagnostic is emitted (though indeed no command is
executed). -/
theorem c4_counterexample :
    stop_server (mkVnc "foo") env0 =
      [Effect.printErr "Could not identify ip from paramter: foo"] ∧
    (stop_server (mkVnc "foo") env0).any isStderrEffect = true ∧
    (stop_server (mkVnc "foo") env0).any isExecEffect = false := by
  refine ⟨by decide, by decide, by decide⟩

/-- C4 witness: concrete aborted invocation. -/
theorem c4_witness :
    get_remote "bar" = none ∧
      start_client (mkVnc "bar") env0 = [guardErr (mkVnc "bar")] :=
  ⟨by decide, (c4_guard_aborts "bar" env0 true 9900 (by decide)).2.2.2.2.1⟩

/-- C5: in the default connect flow, the single tunnel-and-viewer command
handed to `os.system` uses local forward port `9900 + n`, where `n` is the
count of already-running local viewer processes reported by
`is_client_running` (so exactly 9900 when `n = 0`). -/
theorem c5_forward_port (ip r : String) (env : Env) (n : Nat)
    (hr : get_remote ip = some r)
    (h0 : env.local_pgrep.returncode = 0)
    (hn : pyInt? (pyStripChar '\n' env.local_pgrep.stdout) = some (n : Int)) :
    systemCmds (start_client (mkVnc ip) env) =
      [connectCmd r env (9900 + (n : Int))] := by
  have htr : pyTruthyOptStr (mkVnc ip).remote = true := by
    have h2 := pyTruthy_of_get_remote ip r hr
    simpa [mkVnc, hr] using h2
  have hrs : remoteStr (mkVnc ip) = r := by simp [remoteStr, mkVnc, hr]
  rcases Nat.eq_zero_or_pos n with hn0 | hn0
  · subst hn0
    cases hpg : env.pgrep_remote_ok <;>
      simp [start_client, htr, hrs, hpg, is_server_running, is_client_running,
        h0, hn, start_server, connect_server, stop_server, pyNotOptBool,
        systemCmds, List.filterMap_append, List.filterMap_cons]
  · have hn0' : (0 : Int) < (n : Int) := by exact_mod_cast hn0
    cases hpg : env.pgrep_remote_ok <;>
      simp [start_client, htr, hrs, hpg, is_server_running, is_client_running,
        h0, hn, start_server, connect_server, stop_server, pyNotOptBool,
        systemCmds, List.filterMap_append, List.filterMap_cons, hn0']

/-- C5 witness: two running viewers give forward port 9902. -/
theorem c5_witness :
    get_remote "l193" = some "procs@192.168.200.193" ∧
      systemCmds (start_client (mkVnc "l193") env0) =
        [connectCmd "procs@192.168.200.193" env0 9902] := by
  refine ⟨by decide, ?_⟩
  have h := c5_forward_port "l193" "procs@192.168.200.193" env0 2
    (by decide) (by decide) (by decide)
  have e : (9900 + ((2 : Nat) : Int)) = 9902 := by norm_num
  rw [e] at h
  exact h

/-- C6: the connect lifecycle first queries the remote server (the very
first effect is the remote `pgrep`), starts the server in the background
iff that query reported not-running, and issues the remote `killall` iff
this invocation started the server; when it self-started, the stop
commands are the trailing suffix of the session, after the viewer. -/
theorem c6_connect_lifecycle (ip r : String) (env : Env) (n : Nat)
    (hr : get_remote ip = some r)
    (h0 : env.local_pgrep.returncode = 0)
    (hn : pyInt? (pyStripChar '\n' env.local_pgrep.stdout) = some (n : Int)) :
    (start_client (mkVnc ip) env).head? =
        some (Effect.run ["ssh", r, "pgrep", "-f", SERVER]) ∧
    ((Effect.popen (startServerCmd r false) ∈ start_client (mkVnc ip) env) ↔
        env.pgrep_remote_ok = false) ∧
    ((Effect.run ["ssh", r, "killall", SERVER] ∈ start_client (mkVnc ip) env) ↔
        env.pgrep_remote_ok = false) ∧
    (env.pgrep_remote_ok = false →
        ∃ pre, start_client (mkVnc ip) env = pre ++ stop_server (mkVnc ip) env) := by
  have htr : pyTruthyOptStr (mkVnc ip).remote = true := by
    have h2 := pyTruthy_of_get_remote ip r hr
    simpa [mkVnc, hr] using h2
  have hrs : remoteStr (mkVnc ip) = r := by simp [remoteStr, mkVnc, hr]
  refine ⟨?_, ?_, ?_, ?_⟩
  · cases hpg : env.pgrep_remote_ok <;>
      simp [start_client, htr, hrs, hpg, is_server_running, is_client_running,
        h0, hn, start_server, pyNotOptBool]
  · cases hpg : env.pgrep_remote_ok <;>
      by_cases hn0 : (n : Int) > 0 <;>
      simp [start_client, htr, hrs, hpg, hn0, is_server_running,
        is_client_running, h0, hn, start_server, connect_server, stop_server,
        pyNotOptBool]
  · cases hpg : env.pgrep_remote_ok <;>
      by_cases hn0 : (n : Int) > 0 <;>
      simp [start_client, htr, hrs, hpg, hn0, is_server_running,
        is_client_running, h0, hn, start_server, connect_server, stop_server,
        pyNotOptBool, SERVER, CLIENT]
  · intro hpg
    refine ⟨[Effect.run ["ssh", r, "pgrep", "-f", SERVER]] ++
      start_server (mkVnc ip) env false ++ [Effect.run ["pgrep", "-c", CLIENT]] ++
      (if (n : Int) > 0 then
        [Effect.printOut (toString (n : Int) ++ " instance(s) of " ++ CLIENT ++
          " is running. Use forwarding port: " ++ toString (9900 + (n : Int)))]
       else []) ++
      connect_server (mkVnc ip) env (if (n : Int) > 0 then 9900 + (n : Int) else 9900),
      ?_⟩
    by_cases hn0 : (n : Int) > 0 <;>
      simp [start_client, htr, hrs, hpg, hn0, is_server_running,
        is_client_running, h0, hn, start_server, connect_server, stop_server,
        pyNotOptBool]

/-- C6 witness: concrete run with the server already running. -/
theorem c6_witness :
    (start_client (mkVnc "l193") env0).head? =
        some (Effect.run ["ssh", "procs@192.168.200.193", "pgrep", "-f", SERVER]) ∧
    ¬ (Effect.run ["ssh", "procs@192.168.200.193", "killall", SERVER] ∈
        start_client (mkVnc "l193") env0) := by
  have h := c6_connect_lifecycle "l193" "procs@192.168.200.193" env0 2
    (by decide) (by decide) (by decide)
  refine ⟨h.1, fun hmem => ?_⟩
  have := (h.2.2.1).mp hmem
  simp [env0] at this

/-- C7 counterexample: a zero exit with unparsable stdout does not yield
zero: the uncaught `ValueError` (modelled `none`) aborts instead. -/
theorem c7_counterexample :
    (is_client_running ⟨0, "abc"⟩).1 = none ∧
      (is_client_running ⟨0, "abc"⟩).1 ≠ some 0 := by
  refine ⟨by decide, by decide⟩

/-- C7 (amended): the local viewer count is the parsed stdout of
`pgrep -c` when it exits 0 and its output parses as an integer; any
non-zero exit yields 0; a zero exit with unparsable output raises an
uncaught `ValueError` (modelled as `none`) rather than yielding 0. -/
theorem c7_client_count (res : RunResult) (k : Int) :
    (res.returncode = 0 → pyInt? (pyStripChar '\n' res.stdout) = some k →
      (is_client_running res).1 = some k) ∧
    (res.returncode ≠ 0 → (is_client_running res).1 = some 0) ∧
    (res.returncode = 0 → pyInt? (pyStripChar '\n' res.stdout) = none →
      (is_client_running res).1 = none) := by
  refine ⟨?_, ?_, ?_⟩
  · intro h0 hp
    simp [is_client_running, h0, hp]
  · intro hnz
    simp [is_client_running, hnz]
  · intro h0 hp
    simp [is_client_running, h0, hp]

/-- C7 witness: exit 0 with output `2\n` counts 2 viewers. -/
theorem c7_witness : (is_client_running ⟨0, "2\n"⟩).1 = some 2 :=
  (c7_client_count ⟨0, "2\n"⟩ 2).1 rfl (by decide)

/-- C8 counterexample: the stop-server command is executed as the very
first effect of `stop_server`, with no echo of the command to stdout
before it (the only stdout print is the after-the-fact confirmation). -/
theorem c8_counterexample :
    stop_server (mkVnc "l193") env0 =
      [Effect.run ["ssh", "procs@192.168.200.193", "killall", "x0tigervncserver"],
       Effect.printOut "Closed x0tigervncserver at procs@192.168.200.193"] ∧
    (stop_server (mkVnc "l193") env0).head? =
      some (Effect.run
        ["ssh", "procs@192.168.200.193", "killall", "x0tigervncserver"]) := by
  refine ⟨by decide, by decide⟩

/-- C8 (amended): the start-server and tunnel-and-viewer command strings
are echoed to stdout immediately before execution, but the stop-server
command and the two status-check commands are executed without being
echoed (their first effect is already the execution). -/
theorem c8_echo_discipline (v : Vnc) (env : Env) (port : Int) (term : Bool)
    (h : pyTruthyOptStr v.remote = true) :
    (∃ c, connect_server v env port = [Effect.printOut c, Effect.system c]) ∧
    (∃ c, start_server v env term =
      Effect.printOut c ::
        (if term then [Effect.runSplitWait c]
         else [Effect.popen c, Effect.sleep 1])) ∧
    (stop_server v env).head? =
      some (Effect.run ["ssh", remoteStr v, "killall", SERVER]) ∧
    (is_server_running v env).2.head? =
      some (Effect.run ["ssh", remoteStr v, "pgrep", "-f", SERVER]) ∧
    (is_client_running env.local_pgrep).2 = [Effect.run ["pgrep", "-c", CLIENT]] := by
  refine ⟨⟨connectCmd (remoteStr v) env port, ?_⟩,
    ⟨startServerCmd (remoteStr v) term, ?_⟩, ?_, ?_, rfl⟩
  · simp [connect_server, h]
  · simp [start_server, h]
  · simp [stop_server, h]
  · cases hpg : env.pgrep_remote_ok <;> simp [is_server_running, h, hpg]

/-- C8 witness: concrete echoed connect command. -/
theorem c8_witness :
    pyTruthyOptStr (mkVnc "l193").remote = true ∧
      (∃ c, connect_server (mkVnc "l193") env0 9900 =
        [Effect.printOut c, Effect.system c]) :=
  ⟨by decide, (c8_echo_discipline (mkVnc "l193") env0 9900 true (by decide)).1⟩

/-- C10: with three CLI arguments the handler is selected by substring
containment of the action in `start_server`, `connect_server`,
`stop_server`, tested in that order; both `start` and `server` hit
`start_server`, which is invoked with the truthy string `'True'`, so the
explicit start path prints the `-t` command and runs it interactively
(`subprocess.run`, not the detached `Popen`); an action contained in none
of the three names runs nothing. -/
theorem c10_dispatch_by_substring (v : Vnc) (env : Env) (a : String)
    (hv : pyTruthyOptStr v.remote = true) :
    main3 v env "start" = start_server v env true ∧
    main3 v env "server" = start_server v env true ∧
    (pyInStr a "start_server" = true → main3 v env a = start_server v env true) ∧
    (pyInStr a "start_server" = false → pyInStr a "connect_server" = true →
      main3 v env a = connect_server v env 9900) ∧
    (pyInStr a "start_server" = false → pyInStr a "connect_server" = false →
      pyInStr a "stop_server" = true → main3 v env a = stop_server v env) ∧
    (pyInStr a "start_server" = false → pyInStr a "connect_server" = false →
      pyInStr a "stop_server" = false → main3 v env a = []) ∧
    start_server v env true =
      [Effect.printOut (startServerCmd (remoteStr v) true),
       Effect.runSplitWait (startServerCmd (remoteStr v) true)] := by
  have htrue : pyTruthyStr "True" = true := by decide
  have h1 : pyInStr "start" "start_server" = true := by decide
  have h2 : pyInStr "server" "start_server" = true := by decide
  refine ⟨?_, ?_, ?_, ?_, ?_, ?_, ?_⟩
  · simp [main3, h1, htrue]
  · simp [main3, h2, htrue]
  · intro hA
    simp [main3, hA, htrue]
  · intro hA hB
    simp [main3, hA, hB]
  · intro hA hB hC
    simp [main3, hA, hB, hC]
  · intro hA hB hC
    simp [main3, hA, hB, hC]
  · simp [start_server, hv]

/-- C10 witness: `server` dispatches to the interactive `-t` start, and an
unrelated action dispatches to nothing. -/
theorem c10_witness :
    main3 (mkVnc "l193") env0 "server" = start_server (mkVnc "l193") env0 true ∧
    pyInStr "-t" (startServerCmd (remoteStr (mkVnc "l193")) true) = true ∧
    main3 (mkVnc "l193") env0 "xyz" = [] :=
  ⟨(c10_dispatch_by_substring (mkVnc "l193") env0 "xyz" (by decide)).2.1,
   by decide,
   (c10_dispatch_by_substring (mkVnc "l193") env0 "xyz" (by decide)).2.2.2.2.2.1
     (by decide) (by decide) (by decide)⟩

end StartVnc
